import Mathlib

/-
Shallow embedding of the code-quality checker in src/code_analyzer.py.

The analyzer dispatches on the (lower-cased) language tag, writes the
submitted code to a temporary file, runs external linters (pylint and
flake8 for Python, eslint for JavaScript) as subprocesses, and normalizes
their output into bug / warning / suggestion buckets.  Pure parts
(string handling, output normalization, the regex fallback) are embedded
directly; the external world (tool availability, subprocess outcomes,
JSON parsing of tool stdout) is an explicit environment value, and
file-system and process side effects are recorded in an effect trace.
-/

namespace CodeAnalyzer

/-- Whitespace characters recognized by the Python `str.strip` and the
regex class `\s` (ASCII range, which is all the analyzer ever meets). -/
def isPySpace (c : Char) : Bool :=
  c = ' ' || c = '\t' || c = '\n' || c = '\r' || c = '\x0b' || c = '\x0c'

/-- Model of Python `str.strip()`: drop leading and trailing whitespace. -/
def pyStripList (cs : List Char) : List Char :=
  ((cs.dropWhile isPySpace).reverse.dropWhile isPySpace).reverse

/-- Model of Python `str.strip()` on strings. -/
def pyStrip (s : String) : String := ⟨pyStripList s.data⟩

/-- Split a character list on a separator character, keeping empty
segments, as Python `str.split(sep)` does (the empty input gives one
empty segment). -/
def splitOnChar (c : Char) : List Char → List (List Char)
  | [] => [[]]
  | x :: xs =>
    match splitOnChar c xs with
    | g :: gs => if x = c then [] :: g :: gs else (x :: g) :: gs
    | [] => [[x]]

/-- Model of Python `s.split(chr)` returning strings. -/
def pySplitChar (c : Char) (s : String) : List String :=
  (splitOnChar c s.data).map (fun l => ⟨l⟩)

/-- Model of Python `s.split(sep, 3)`: at most three splits, the fourth
part keeps the remaining separators. -/
def pySplitColon3 (s : String) : List String :=
  match splitOnChar ':' s.data with
  | a :: b :: c :: d :: rest =>
    [⟨a⟩, ⟨b⟩, ⟨c⟩, ⟨((d :: rest).intersperse [':']).flatten⟩]
  | parts => parts.map (fun l => ⟨l⟩)

/-- Model of Python `s.startswith(pre)`. -/
def pyStartsWith (s pre : String) : Bool := pre.data.isPrefixOf s.data

/-- Model of Python `s.endswith(suf)`. -/
def pyEndsWith (s suf : String) : Bool := suf.data.reverse.isPrefixOf s.data.reverse

/-- Model of Python `str.lower()` on one character (ASCII letters). -/
def pyLowerChar (c : Char) : Char :=
  if 65 ≤ c.toNat ∧ c.toNat ≤ 90 then Char.ofNat (c.toNat + 32) else c

/-- Model of Python `str.lower()`. -/
def pyLower (s : String) : String := ⟨s.data.map pyLowerChar⟩

/-- Numeric value of a nonempty all-digit character list, or `none`. -/
def digitsVal (cs : List Char) : Option Nat :=
  if cs ≠ [] ∧ cs.all (·.isDigit) then
    some (cs.foldl (fun a c => a * 10 + (c.toNat - 48)) 0)
  else none

/-- Model of Python `int(s)`: strip whitespace, allow an optional sign
before the digits, raise `ValueError` otherwise. -/
def pyInt (s : String) : Except String Int :=
  let core : Option Int :=
    match pyStripList s.data with
    | '+' :: rest => (digitsVal rest).map Int.ofNat
    | '-' :: rest => (digitsVal rest).map (fun n => -(n : Int))
    | cs => (digitsVal cs).map Int.ofNat
  match core with
  | some n => .ok n
  | none => .error ("invalid literal for int() with base 10: " ++ s)

/-- One normalized issue record.  Fields that a given producer does not
put into its dict are `none` (the regex fallback emits no column, only
pylint and eslint emit a symbol, only flake8 emits a code). -/
structure Issue where
  line : Int
  column : Option Int
  message : String
  type : String
  symbol : Option String
  code : Option String
deriving DecidableEq, Repr

/-- The dict returned by the per-tool runners: three issue buckets plus
an optional error string (key present or absent in the Python dict). -/
structure ToolResult where
  bugs : List Issue
  warnings : List Issue
  suggestions : List Issue
  error : Option String
deriving DecidableEq, Repr

/-- The dict returned by `analyze` and the per-language pipelines. -/
structure AnalysisResult where
  bugs : List Issue
  warnings : List Issue
  suggestions : List Issue
  summary : Option String
  error : Option String
deriving DecidableEq, Repr

/-- Side effects of an analysis call, in order of occurrence. -/
inductive Effect where
  | createTempFile
  | runTool (tool : String)
  | removeTempFile
deriving DecidableEq, Repr

/-- Captured outcome of a completed subprocess. -/
structure ProcResult where
  exitCode : Int
  stdout : String
  stderr : String
deriving DecidableEq, Repr

/-- Outcome of a subprocess invocation whose stdout the caller feeds to
`json.loads`: completion carries the process result together with what
`json.loads` yields on its stdout (`Except.error` marks a
`JSONDecodeError`); the other constructors are the `TimeoutExpired` and
generic-exception paths. -/
inductive JsonEvent (α : Type) where
  | completed (res : ProcResult) (parsed : Except String α)
  | timedOut
  | raised (msg : String)

/-- Outcome of a subprocess invocation whose stdout is consumed as plain
text (flake8). -/
inductive ProcEvent where
  | completed (res : ProcResult)
  | timedOut
  | raised (msg : String)
deriving DecidableEq, Repr

/-- One record of the pylint JSON array.  Every field is optional,
mirroring `issue.get(key, default)` on the Python dict. -/
structure PylintRecord where
  line : Option Int
  column : Option Int
  message : Option String
  type : Option String
  symbol : Option String
deriving DecidableEq, Repr

/-- The item dict `_run_pylint` builds from one pylint record. -/
def mkPylintItem (r : PylintRecord) : Issue :=
  { line := r.line.getD 0
    column := some (r.column.getD 0)
    message := r.message.getD ""
    type := r.type.getD ""
    symbol := some (r.symbol.getD "")
    code := none }

/-- The bucketing loop of `_run_pylint` (source lines 105 to 118):
`type == "error"` goes to bugs, `"warning"` to warnings, `"convention"`
or `"refactor"` to suggestions, anything else is dropped. -/
def pylintBuckets : List PylintRecord → List Issue × List Issue × List Issue
  | [] => ([], [], [])
  | r :: rs =>
    let rest := pylintBuckets rs
    if r.type = some "error" then (mkPylintItem r :: rest.1, rest.2.1, rest.2.2)
    else if r.type = some "warning" then (rest.1, mkPylintItem r :: rest.2.1, rest.2.2)
    else if r.type = some "convention" ∨ r.type = some "refactor" then
      (rest.1, rest.2.1, mkPylintItem r :: rest.2.2)
    else rest

/-- The flake8 line loop of `_run_flake8` (source lines 151 to 165):
skip empty lines and lines with fewer than four colon-delimited fields;
otherwise parse row and column as ints (a `ValueError` escapes to the
generic exception handler), bucket by whether the code starts with
`E`. -/
def flake8Lines : List String → Except String (List Issue × List Issue)
  | [] => .ok ([], [])
  | l :: ls =>
    if l = "" then flake8Lines ls
    else
      match pySplitColon3 l with
      | [a, b, c, d] =>
        match pyInt a with
        | .error e => .error e
        | .ok n =>
          match pyInt b with
          | .error e => .error e
          | .ok m =>
            let item : Issue :=
              { line := n, column := some m, message := d, type := "style"
                symbol := none, code := some c }
            (flake8Lines ls).map (fun p =>
              if pyStartsWith c "E" then (item :: p.1, p.2)
              else (p.1, item :: p.2))
      | _ => flake8Lines ls

/-- Full flake8 stdout normalization:
`result.stdout.strip().split chr 10` then the line loop. -/
def flake8Normalize (stdout : String) : Except String (List Issue × List Issue) :=
  flake8Lines (pySplitChar '\n' (pyStrip stdout))

/-- One message record of the eslint JSON output, fields optional as
with pylint. -/
structure EslintMessage where
  line : Option Int
  column : Option Int
  message : Option String
  severity : Option Int
  ruleId : Option String
deriving DecidableEq, Repr

/-- One per-file object of the eslint JSON output; only its `messages`
array is consumed. -/
structure EslintFile where
  messages : List EslintMessage
deriving DecidableEq, Repr

/-- The item dict `_analyze_javascript` builds from one eslint message
(`severity` defaulted to 1 decides the type string). -/
def mkEslintItem (m : EslintMessage) : Issue :=
  { line := m.line.getD 0
    column := some (m.column.getD 0)
    message := m.message.getD ""
    type := if m.severity.getD 1 = 2 then "error" else "warning"
    symbol := some (m.ruleId.getD "")
    code := none }

/-- The eslint message bucketing loop (source lines 199 to 210):
severity 2 goes to bugs, anything else to warnings. -/
def eslintMsgBuckets : List EslintMessage → List Issue × List Issue
  | [] => ([], [])
  | m :: ms =>
    let rest := eslintMsgBuckets ms
    if m.severity = some 2 then (mkEslintItem m :: rest.1, rest.2)
    else (rest.1, mkEslintItem m :: rest.2)

/-- Both nested eslint loops: files, then the messages of each file. -/
def eslintBuckets (files : List EslintFile) : List Issue × List Issue :=
  eslintMsgBuckets (files.map (fun f => f.messages)).flatten

/-- Word character for the regex boundary `\b` (ASCII `\w`). -/
def isWordChar (c : Char) : Bool := c.isAlphanum || c = '_'

/-- Semantics of the regex search for a non-terminator character
followed only by whitespace up to the end of the line (the pattern
applied to the stripped line in the semicolon heuristic): true when,
after dropping trailing whitespace, the last character is none of
semicolon and the two braces. -/
def searchNonTermEnd (cs : List Char) : Bool :=
  match cs.reverse.dropWhile isPySpace with
  | [] => false
  | c :: _ => !(c = ';' || c = '\x7b' || c = '\x7d')

/-- Semantics of the anchored match for optional whitespace then one of
the control-flow keywords as a prefix (no word boundary, exactly as the
source regex). -/
def startsWithKeyword (s : String) : Bool :=
  let t := s.data.dropWhile isPySpace
  ["if", "for", "while", "function", "else", "try", "catch", "finally"].any
    (fun k => k.data.isPrefixOf t)

/-- Scan for the pattern boundary-v-a-r-whitespace: a position where the
previous character is not a word character, the literal `var` follows,
and at least one whitespace character comes after it.  The flag carries
whether the previous character was a word character. -/
def hasVarDecl (prevWord : Bool) : List Char → Bool
  | 'v' :: 'a' :: 'r' :: c :: rest =>
    (!prevWord && isPySpace c) || hasVarDecl true ('a' :: 'r' :: c :: rest)
  | c :: rest => hasVarDecl (isWordChar c) rest
  | [] => false

/-- Scan for two equals signs not followed by a third (the loose
equality pattern with its negative lookahead). -/
def hasLooseEq : List Char → Bool
  | '=' :: '=' :: '=' :: rest => hasLooseEq ('=' :: '=' :: rest)
  | '=' :: '=' :: _ => true
  | _ :: rest => hasLooseEq rest
  | [] => false

/-- Substring search for a literal pattern. -/
def hasSubstring (pat : List Char) : List Char → Bool
  | [] => pat.isPrefixOf []
  | c :: rest => pat.isPrefixOf (c :: rest) || hasSubstring pat rest

/-- After the literal `function`: optional whitespace, an opening paren,
optional whitespace, a closing paren. -/
def afterFunctionKw (cs : List Char) : Bool :=
  match cs.dropWhile isPySpace with
  | '(' :: rest =>
    match rest.dropWhile isPySpace with
    | ')' :: _ => true
    | _ => false
  | _ => false

/-- Scan for the anonymous zero-argument function pattern. -/
def hasEmptyFunction : List Char → Bool
  | 'f' :: 'u' :: 'n' :: 'c' :: 't' :: 'i' :: 'o' :: 'n' :: rest =>
    afterFunctionKw rest ||
      hasEmptyFunction ('u' :: 'n' :: 'c' :: 't' :: 'i' :: 'o' :: 'n' :: rest)
  | _ :: rest => hasEmptyFunction rest
  | [] => false

/-- Issues the regex fallback emits for one line, numbered `i` (source
lines 232 to 263): the pair is (warnings, suggestions), each appended in
source order.  The rules are independent and may all fire. -/
def fallbackLine (i : Nat) (line : String) : List Issue × List Issue :=
  let s := pyStrip line
  let semiSugg :=
    if searchNonTermEnd s.data && s ≠ "" && !pyEndsWith s "\x7b" && !pyEndsWith s "\x7d"
        && !startsWithKeyword s then
      [{ line := (i : Int), column := none
         message := "Consider adding semicolon at end of statement"
         type := "style", symbol := none, code := none }]
    else []
  let varSugg :=
    if hasVarDecl false line.data then
      [{ line := (i : Int), column := none
         message := "Consider using let or const instead of var"
         type := "modern", symbol := none, code := none }]
    else []
  let consoleWarn :=
    if hasSubstring "console.log".data line.data then
      [{ line := (i : Int), column := none
         message := "Remove console.log statements in production code"
         type := "warning", symbol := none, code := none }]
    else []
  let eqSugg :=
    if hasLooseEq line.data then
      [{ line := (i : Int), column := none
         message := "Use strict equality (===) instead of loose equality (==)"
         type := "best_practice", symbol := none, code := none }]
    else []
  let funSugg :=
    if hasEmptyFunction line.data then
      [{ line := (i : Int), column := none
         message := "Consider using arrow functions for better readability"
         type := "modern", symbol := none, code := none }]
    else []
  (consoleWarn, semiSugg ++ varSugg ++ eqSugg ++ funSugg)

/-- Lines of the fallback scan, enumerated from `i`. -/
def fallbackGo (i : Nat) : List String → List Issue × List Issue
  | [] => ([], [])
  | l :: ls =>
    let here := fallbackLine i l
    let rest := fallbackGo (i + 1) ls
    (here.1 ++ rest.1, here.2 ++ rest.2)

/-- The whole regex fallback scan over the submitted code, returning
(warnings, suggestions); it produces no bugs. -/
def fallbackScan (code : String) : List Issue × List Issue :=
  fallbackGo 1 (pySplitChar '\n' code)

/-- An error-carrying tool dict, always with empty buckets, exactly as
every error return in the source builds it. -/
def toolError (msg : String) : ToolResult :=
  { bugs := [], warnings := [], suggestions := [], error := some msg }

/-- The `_run_pylint` function: availability check, then the subprocess
outcome; nonempty stdout is fed to the JSON parser and bucketed, empty
stdout is a failure carrying stderr.  The effect list records whether a
subprocess was spawned. -/
def run_pylint (avail : Bool) (ev : JsonEvent (List PylintRecord)) :
    ToolResult × List Effect :=
  if !avail then
    (toolError "pylint not installed. Install using \x22pip install pylint\x22.", [])
  else
    match ev with
    | .completed res parsed =>
      if res.stdout ≠ "" then
        match parsed with
        | .ok recs =>
          let bk := pylintBuckets recs
          ({ bugs := bk.1, warnings := bk.2.1, suggestions := bk.2.2, error := none },
            [.runTool "pylint"])
        | .error _ =>
          (toolError "Failed to parse pylint output", [.runTool "pylint"])
      else
        (toolError ("pylint failed: " ++ res.stderr), [.runTool "pylint"])
    | .timedOut => (toolError "pylint analysis timed out", [.runTool "pylint"])
    | .raised m => (toolError ("pylint error: " ++ m), [.runTool "pylint"])

/-- The `_run_flake8` function: availability check, then the subprocess
outcome; stdout is normalized line by line, a `ValueError` from the int
conversions reaches the generic handler.  The success dict carries no
suggestions (the source dict has no such key; the caller never reads
one). -/
def run_flake8 (avail : Bool) (ev : ProcEvent) : ToolResult × List Effect :=
  if !avail then
    (toolError "flake8 not installed. Install using \x22pip install flake8\x22.", [])
  else
    match ev with
    | .completed res =>
      match flake8Normalize res.stdout with
      | .ok bw =>
        ({ bugs := bw.1, warnings := bw.2, suggestions := [], error := none },
          [.runTool "flake8"])
      | .error e =>
        (toolError ("flake8 error: " ++ e), [.runTool "flake8"])
    | .timedOut => (toolError "flake8 analysis timed out", [.runTool "flake8"])
    | .raised m => (toolError ("flake8 error: " ++ m), [.runTool "flake8"])

/-- Environment for one Python analysis: tool availability and the
outcome each subprocess would have on the temp file holding the code. -/
structure PyEnv where
  pylintAvail : Bool
  flake8Avail : Bool
  pylintRun : JsonEvent (List PylintRecord)
  flake8Run : ProcEvent

/-- Environment for one JavaScript analysis. -/
structure JsEnv where
  eslintAvail : Bool
  eslintRun : JsonEvent (List EslintFile)

/-- The summary string of a successful analysis. -/
def mkSummary (b w s : List Issue) : String :=
  "Found " ++ toString b.length ++ " bugs, " ++ toString w.length ++
    " warnings, " ++ toString s.length ++ " suggestions"

/-- An error-carrying analysis dict, empty buckets and no summary. -/
def analysisError (msg : String) : AnalysisResult :=
  { bugs := [], warnings := [], suggestions := [], summary := none
    error := some msg }

/-- The view of a tool dict as the value `_analyze_python` returns when
the dict carries an error (the dict is returned as is; it has no
summary key). -/
def ToolResult.toAnalysis (t : ToolResult) : AnalysisResult :=
  { bugs := t.bugs, warnings := t.warnings, suggestions := t.suggestions
    summary := none, error := t.error }

/-- The `_analyze_python` function: create the temp file, run pylint and
return its dict if it carries an error, else run flake8 and return its
dict if it carries an error, else concatenate (flake8 contributes only
bugs and warnings) and summarize; the temp file is removed on every
path by the `finally` clause. -/
def analyze_python (env : PyEnv) : AnalysisResult × List Effect :=
  let pl := run_pylint env.pylintAvail env.pylintRun
  if pl.1.error.isSome then
    (pl.1.toAnalysis, .createTempFile :: pl.2 ++ [.removeTempFile])
  else
    let fl := run_flake8 env.flake8Avail env.flake8Run
    if fl.1.error.isSome then
      (fl.1.toAnalysis, .createTempFile :: pl.2 ++ fl.2 ++ [.removeTempFile])
    else
      let b := pl.1.bugs ++ fl.1.bugs
      let w := pl.1.warnings ++ fl.1.warnings
      let s := pl.1.suggestions
      ({ bugs := b, warnings := w, suggestions := s
         summary := some (mkSummary b w s), error := none },
        .createTempFile :: pl.2 ++ fl.2 ++ [.removeTempFile])

/-- The `_analyze_javascript` function: with eslint available, create
the temp file, run eslint, normalize nonempty stdout (empty stdout is a
failure carrying stderr), and remove the temp file on every path;
without eslint, run the regex fallback on the in-memory text with no
file or process work. -/
def analyze_javascript (code : String) (env : JsEnv) :
    AnalysisResult × List Effect :=
  if env.eslintAvail then
    let effs : List Effect := [.createTempFile, .runTool "eslint", .removeTempFile]
    match env.eslintRun with
    | .completed res parsed =>
      if res.stdout ≠ "" then
        match parsed with
        | .ok files =>
          let bw := eslintBuckets files
          ({ bugs := bw.1, warnings := bw.2, suggestions := []
             summary := some (mkSummary bw.1 bw.2 []), error := none }, effs)
        | .error _ => (analysisError "Failed to parse ESLint output", effs)
      else
        (analysisError ("ESLint failed: " ++ res.stderr), effs)
    | .timedOut => (analysisError "ESLint analysis timed out", effs)
    | .raised m => (analysisError ("ESLint error: " ++ m), effs)
  else
    let ws := fallbackScan code
    ({ bugs := [], warnings := ws.1, suggestions := ws.2
       summary := some (mkSummary [] ws.1 ws.2), error := none }, [])

/-- Environment for one `analyze` call. -/
structure Env where
  py : PyEnv
  js : JsEnv

/-- The `analyze` entry point: lower-case the language tag, dispatch to
the Python or JavaScript pipeline, or return the unsupported-language
error with no side effects. -/
def analyze (code language : String) (env : Env) :
    AnalysisResult × List Effect :=
  let lang := pyLower language
  if lang = "python" then analyze_python env.py
  else if lang = "javascript" then analyze_javascript code env.js
  else
    (analysisError ("Language \x22" ++ lang ++
      "\x22 is not supported. Supported languages: python, javascript"), [])

theorem pylintBuckets_bugs (recs : List PylintRecord) :
    (pylintBuckets recs).1 =
      (recs.filter (fun r => decide (r.type = some "error"))).map mkPylintItem := by
  induction recs with
  | nil => rfl
  | cons r rs ih =>
    simp only [pylintBuckets, List.filter]
    by_cases h1 : r.type = some "error"
    · simp [h1, ih]
    · by_cases h2 : r.type = some "warning"
      · simp [h1, h2, ih]
      · by_cases h3 : r.type = some "convention" ∨ r.type = some "refactor"
        · simp [h1, h2, h3, ih]
        · simp [h1, h2, h3, ih]

theorem pylintBuckets_warnings (recs : List PylintRecord) :
    (pylintBuckets recs).2.1 =
      (recs.filter (fun r => decide (r.type = some "warning"))).map mkPylintItem := by
  induction recs with
  | nil => rfl
  | cons r rs ih =>
    simp only [pylintBuckets, List.filter]
    by_cases h1 : r.type = some "error"
    · have : ¬ r.type = some "warning" := by simp [h1]
      simp [h1, this, ih]
    · by_cases h2 : r.type = some "warning"
      · simp [h1, h2, ih]
      · by_cases h3 : r.type = some "convention" ∨ r.type = some "refactor"
        · simp [h1, h2, h3, ih]
        · simp [h1, h2, h3, ih]

theorem pylintBuckets_suggestions (recs : List PylintRecord) :
    (pylintBuckets recs).2.2 =
      (recs.filter (fun r =>
        decide (r.type = some "convention" ∨ r.type = some "refactor"))).map
        mkPylintItem := by
  induction recs with
  | nil => rfl
  | cons r rs ih =>
    simp only [pylintBuckets, List.filter]
    by_cases h1 : r.type = some "error"
    · have : ¬ (r.type = some "convention" ∨ r.type = some "refactor") := by simp [h1]
      simp [h1, this, ih]
    · by_cases h2 : r.type = some "warning"
      · have : ¬ (r.type = some "convention" ∨ r.type = some "refactor") := by simp [h2]
        simp [h1, h2, this, ih]
      · by_cases h3 : r.type = some "convention" ∨ r.type = some "refactor"
        · simp [h1, h2, h3, ih]
        · simp [h1, h2, h3, ih]

theorem mem_pylintBuckets_bugs {recs : List PylintRecord} {x : Issue}
    (hx : x ∈ (pylintBuckets recs).1) : x.type = "error" := by
  rw [pylintBuckets_bugs] at hx
  obtain ⟨r, hr, rfl⟩ := List.mem_map.mp hx
  have := (List.mem_filter.mp hr).2
  simp only [decide_eq_true_eq] at this
  simp [mkPylintItem, this]

theorem mem_pylintBuckets_warnings {recs : List PylintRecord} {x : Issue}
    (hx : x ∈ (pylintBuckets recs).2.1) : x.type = "warning" := by
  rw [pylintBuckets_warnings] at hx
  obtain ⟨r, hr, rfl⟩ := List.mem_map.mp hx
  have := (List.mem_filter.mp hr).2
  simp only [decide_eq_true_eq] at this
  simp [mkPylintItem, this]

theorem mem_pylintBuckets_suggestions {recs : List PylintRecord} {x : Issue}
    (hx : x ∈ (pylintBuckets recs).2.2) :
    x.type = "convention" ∨ x.type = "refactor" := by
  rw [pylintBuckets_suggestions] at hx
  obtain ⟨r, hr, rfl⟩ := List.mem_map.mp hx
  have := (List.mem_filter.mp hr).2
  simp only [decide_eq_true_eq] at this
  rcases this with h | h <;> simp [mkPylintItem, h]

/-- Type string of the item built from a record whose `type` value is
none of the four recognized strings. -/
theorem mkPylintItem_type_unrecognized {r : PylintRecord}
    (h1 : r.type ≠ some "error") (h2 : r.type ≠ some "warning")
    (h3 : r.type ≠ some "convention") (h4 : r.type ≠ some "refactor") :
    (mkPylintItem r).type ≠ "error" ∧ (mkPylintItem r).type ≠ "warning" ∧
      (mkPylintItem r).type ≠ "convention" ∧ (mkPylintItem r).type ≠ "refactor" := by
  cases ht : r.type with
  | none => simp [mkPylintItem, ht]
  | some t =>
    rw [ht] at h1 h2 h3 h4
    simp only [ne_eq, Option.some.injEq] at h1 h2 h3 h4
    simp [mkPylintItem, ht, h1, h2, h3, h4]

/-- C1: for every pylint output record, the normalizer puts a record
with type `error` into bugs, type `warning` into warnings, type
`convention` or `refactor` into suggestions, and a record with any
other (unrecognized) type into none of the three buckets. -/
theorem pylint_bucketing (recs : List PylintRecord) :
    (∀ r ∈ recs, r.type = some "error" → mkPylintItem r ∈ (pylintBuckets recs).1)
    ∧ (∀ r ∈ recs, r.type = some "warning" →
        mkPylintItem r ∈ (pylintBuckets recs).2.1)
    ∧ (∀ r ∈ recs, (r.type = some "convention" ∨ r.type = some "refactor") →
        mkPylintItem r ∈ (pylintBuckets recs).2.2)
    ∧ (∀ r ∈ recs, r.type ≠ some "error" → r.type ≠ some "warning" →
        r.type ≠ some "convention" → r.type ≠ some "refactor" →
        mkPylintItem r ∉ (pylintBuckets recs).1 ∧
        mkPylintItem r ∉ (pylintBuckets recs).2.1 ∧
        mkPylintItem r ∉ (pylintBuckets recs).2.2) := by
  refine ⟨?_, ?_, ?_, ?_⟩
  · intro r hr ht
    rw [pylintBuckets_bugs]
    exact List.mem_map_of_mem _ (List.mem_filter.mpr ⟨hr, by simp [ht]⟩)
  · intro r hr ht
    rw [pylintBuckets_warnings]
    exact List.mem_map_of_mem _ (List.mem_filter.mpr ⟨hr, by simp [ht]⟩)
  · intro r hr ht
    rw [pylintBuckets_suggestions]
    exact List.mem_map_of_mem _ (List.mem_filter.mpr ⟨hr, by simp [ht]⟩)
  · intro r _ h1 h2 h3 h4
    obtain ⟨t1, t2, t3, t4⟩ := mkPylintItem_type_unrecognized h1 h2 h3 h4
    refine ⟨fun hx => ?_, fun hx => ?_, fun hx => ?_⟩
    · exact t1 (mem_pylintBuckets_bugs hx)
    · exact t2 (mem_pylintBuckets_warnings hx)
    · rcases mem_pylintBuckets_suggestions hx with h | h
      · exact t3 h
      · exact t4 h

/-- Witness for C1 at a concrete record list: the record with the
unrecognized type `fatal` lands in no bucket, the others land where the
mapping sends them. -/
theorem pylint_bucketing_witness :
    mkPylintItem ⟨some 4, some 0, some "m", some "fatal", some "s"⟩ ∉
      (pylintBuckets
        [⟨some 1, some 2, some "m", some "error", some "s"⟩,
         ⟨some 4, some 0, some "m", some "fatal", some "s"⟩]).1 :=
  ((pylint_bucketing
      [⟨some 1, some 2, some "m", some "error", some "s"⟩,
       ⟨some 4, some 0, some "m", some "fatal", some "s"⟩]).2.2.2
    ⟨some 4, some 0, some "m", some "fatal", some "s"⟩ (by decide) (by decide)
    (by decide) (by decide) (by decide)).1

theorem eslintMsgBuckets_bugs (msgs : List EslintMessage) :
    (eslintMsgBuckets msgs).1 =
      (msgs.filter (fun m => decide (m.severity = some 2))).map mkEslintItem := by
  induction msgs with
  | nil => rfl
  | cons m ms ih =>
    simp only [eslintMsgBuckets, List.filter]
    by_cases h : m.severity = some 2 <;> simp [h, ih]

theorem eslintMsgBuckets_warnings (msgs : List EslintMessage) :
    (eslintMsgBuckets msgs).2 =
      (msgs.filter (fun m => !decide (m.severity = some 2))).map mkEslintItem := by
  induction msgs with
  | nil => rfl
  | cons m ms ih =>
    simp only [eslintMsgBuckets, List.filter]
    by_cases h : m.severity = some 2 <;> simp [h, ih]

theorem mem_eslintMsgBuckets_bugs {msgs : List EslintMessage} {x : Issue}
    (hx : x ∈ (eslintMsgBuckets msgs).1) : x.type = "error" := by
  rw [eslintMsgBuckets_bugs] at hx
  obtain ⟨m, hm, rfl⟩ := List.mem_map.mp hx
  have := (List.mem_filter.mp hm).2
  simp only [decide_eq_true_eq] at this
  simp [mkEslintItem, this]

theorem mem_eslintMsgBuckets_warnings {msgs : List EslintMessage} {x : Issue}
    (hx : x ∈ (eslintMsgBuckets msgs).2) : x.type = "warning" := by
  rw [eslintMsgBuckets_warnings] at hx
  obtain ⟨m, hm, rfl⟩ := List.mem_map.mp hx
  have := (List.mem_filter.mp hm).2
  simp only [Bool.not_eq_eq_eq_not, Bool.not_true, decide_eq_false_iff_not] at this
  have htype : ¬ m.severity.getD 1 = 2 := by
    cases hs : m.severity with
    | none => simp
    | some k => simpa [hs] using fun hk => this (by simp [hs, hk])
  simp [mkEslintItem, htype]

/-- C3: for every message record in the eslint JSON output, severity 2
yields exactly one bug entry, severity 1 yields exactly one warning
entry, and no message contributes to both buckets: the bug list is
exactly the severity-2 messages in order, the warning list exactly the
others, and an item never sits in both lists. -/
theorem eslint_bucketing (files : List EslintFile) :
    (eslintBuckets files).1 =
      (((files.map (fun f => f.messages)).flatten.filter
        (fun m => decide (m.severity = some 2))).map mkEslintItem)
    ∧ (eslintBuckets files).2 =
      (((files.map (fun f => f.messages)).flatten.filter
        (fun m => !decide (m.severity = some 2))).map mkEslintItem)
    ∧ ∀ m ∈ (files.map (fun f => f.messages)).flatten,
        ¬(mkEslintItem m ∈ (eslintBuckets files).1 ∧
          mkEslintItem m ∈ (eslintBuckets files).2) := by
  refine ⟨eslintMsgBuckets_bugs _, eslintMsgBuckets_warnings _, ?_⟩
  intro m _ ⟨hb, hw⟩
  have h1 := mem_eslintMsgBuckets_bugs hb
  have h2 := mem_eslintMsgBuckets_warnings hw
  rw [h1] at h2
  exact absurd h2 (by decide)

/-- Witness for C3 at a concrete file list: a severity-2 message is
not in both buckets. -/
theorem eslint_bucketing_witness :
    ¬(mkEslintItem ⟨some 1, some 2, some "m", some 2, some "r"⟩ ∈
        (eslintBuckets [⟨[⟨some 1, some 2, some "m", some 2, some "r"⟩]⟩]).1 ∧
      mkEslintItem ⟨some 1, some 2, some "m", some 2, some "r"⟩ ∈
        (eslintBuckets [⟨[⟨some 1, some 2, some "m", some 2, some "r"⟩]⟩]).2) :=
  (eslint_bucketing [⟨[⟨some 1, some 2, some "m", some 2, some "r"⟩]⟩]).2.2
    ⟨some 1, some 2, some "m", some 2, some "r"⟩ (by decide)

/-- C2: a flake8 line with at least four colon-delimited fields
row, col, code, text yields a bug exactly when the code field begins
with `E` and a warning otherwise, with line and column taken from the
first two fields; a line with fewer than four fields is skipped and
contributes nothing.  In particular `3:5:E501:line too long` yields a
bug with line 3 and column 5, and `3:5:W291:trailing whitespace` yields
a warning, not a bug. -/
theorem flake8_line_normalization :
    (flake8Normalize "3:5:E501:line too long" =
      .ok ([⟨3, some 5, "line too long", "style", none, some "E501"⟩], []))
    ∧ (flake8Normalize "3:5:W291:trailing whitespace" =
      .ok ([], [⟨3, some 5, "trailing whitespace", "style", none, some "W291"⟩]))
    ∧ (∀ l ls, (pySplitColon3 l).length < 4 →
        flake8Lines (l :: ls) = flake8Lines ls)
    ∧ (∀ l ls a b c d n m, pySplitColon3 l = [a, b, c, d] →
        pyInt a = .ok n → pyInt b = .ok m →
        flake8Lines (l :: ls) = (flake8Lines ls).map (fun p =>
          if pyStartsWith c "E" then
            (⟨n, some m, d, "style", none, some c⟩ :: p.1, p.2)
          else
            (p.1, ⟨n, some m, d, "style", none, some c⟩ :: p.2))) := by
  refine ⟨rfl, rfl, ?_, ?_⟩
  · intro l ls hlen
    by_cases hl : l = ""
    · subst hl
      simp [flake8Lines]
    · rcases hp : pySplitColon3 l with _ | ⟨a, _ | ⟨b, _ | ⟨c, _ | ⟨d, rest⟩⟩⟩⟩ <;>
        (simp_all [flake8Lines]; try omega)
  · intro l ls a b c d n m hp hn hm
    have hl : l ≠ "" := by
      intro h
      rw [h, show pySplitColon3 "" = [""] from rfl] at hp
      simp at hp
    simp [flake8Lines, hl, hp, hn, hm]

/-- Witness for C2 at a concrete malformed line and a concrete
well-formed line: the two-field line is skipped, and the well-formed
E-line prepends a bug. -/
theorem flake8_line_normalization_witness :
    flake8Lines ["1:2", "7:9:E100:x"] = flake8Lines ["7:9:E100:x"] ∧
    flake8Lines ["7:9:E100:x"] = (flake8Lines []).map (fun p =>
      if pyStartsWith "E100" "E" then
        (⟨7, some 9, "x", "style", none, some "E100"⟩ :: p.1, p.2)
      else
        (p.1, ⟨7, some 9, "x", "style", none, some "E100"⟩ :: p.2)) :=
  ⟨flake8_line_normalization.2.2.1 "1:2" ["7:9:E100:x"] (by decide),
   flake8_line_normalization.2.2.2 "7:9:E100:x" [] "7" "9" "E100" "x" 7 9
     (by decide) rfl rfl⟩

theorem run_pylint_error_shape (avail : Bool)
    (ev : JsonEvent (List PylintRecord)) (msg : String)
    (h : (run_pylint avail ev).1.error = some msg) :
    (run_pylint avail ev).1 = toolError msg := by
  cases avail with
  | false =>
    simp only [run_pylint, toolError] at h ⊢
    simp_all
  | true =>
    cases ev with
    | completed res parsed =>
      by_cases hs : res.stdout = ""
      · simp only [run_pylint, toolError] at h ⊢
        simp_all
      · cases parsed with
        | ok recs => simp [run_pylint, hs] at h
        | error e =>
          simp only [run_pylint, toolError] at h ⊢
          simp_all
    | timedOut =>
      simp only [run_pylint, toolError] at h ⊢
      simp_all
    | raised m =>
      simp only [run_pylint, toolError] at h ⊢
      simp_all

theorem run_flake8_error_shape (avail : Bool) (ev : ProcEvent) (msg : String)
    (h : (run_flake8 avail ev).1.error = some msg) :
    (run_flake8 avail ev).1 = toolError msg := by
  cases avail with
  | false =>
    simp only [run_flake8, toolError] at h ⊢
    simp_all
  | true =>
    cases ev with
    | completed res =>
      cases hn : flake8Normalize res.stdout with
      | ok bw => simp [run_flake8, hn] at h
      | error e =>
        simp only [run_flake8, toolError, hn] at h ⊢
        simp_all
    | timedOut =>
      simp only [run_flake8, toolError] at h ⊢
      simp_all
    | raised m =>
      simp only [run_flake8, toolError] at h ⊢
      simp_all

theorem analyze_python_pylint_error (env : PyEnv) (msg : String)
    (h : (run_pylint env.pylintAvail env.pylintRun).1.error = some msg) :
    (analyze_python env).1 = analysisError msg := by
  have hr := run_pylint_error_shape _ _ _ h
  simp [analyze_python, h, hr, toolError, ToolResult.toAnalysis, analysisError]

theorem analyze_python_flake8_error (env : PyEnv) (msg : String)
    (hp : (run_pylint env.pylintAvail env.pylintRun).1.error = none)
    (hf : (run_flake8 env.flake8Avail env.flake8Run).1.error = some msg) :
    (analyze_python env).1 = analysisError msg := by
  have hr := run_flake8_error_shape _ _ _ hf
  simp [analyze_python, hp, hf, hr, toolError, ToolResult.toAnalysis, analysisError]

/-- C4: in the Python pipeline, an error from either tool step is
returned immediately as the top-level error, and any issues already
collected from a prior tool are discarded: the returned bug, warning,
and suggestion lists are all empty. -/
theorem python_pipeline_error_propagation (env : PyEnv) (msg : String) :
    ((run_pylint env.pylintAvail env.pylintRun).1.error = some msg →
      (analyze_python env).1 = analysisError msg)
    ∧ ((run_pylint env.pylintAvail env.pylintRun).1.error = none →
      (run_flake8 env.flake8Avail env.flake8Run).1.error = some msg →
      (analyze_python env).1 = analysisError msg) :=
  ⟨analyze_python_pylint_error env msg, analyze_python_flake8_error env msg⟩

/-- Witness for C4 at a concrete environment where pylint succeeds with
an empty issue list and flake8 then times out: the pipeline returns the
flake8 error with all three lists empty. -/
theorem python_pipeline_error_propagation_witness :
    (analyze_python ⟨true, true, .completed ⟨0, "[]", ""⟩ (.ok []), .timedOut⟩).1 =
      analysisError "flake8 analysis timed out" :=
  (python_pipeline_error_propagation
      ⟨true, true, .completed ⟨0, "[]", ""⟩ (.ok []), .timedOut⟩
      "flake8 analysis timed out").2 rfl rfl

/-- C5: for every code string and every language whose lower-cased form
is neither `python` nor `javascript`, `analyze` returns the
unsupported-language error with empty bug, warning, and suggestion
lists and performs no tool invocation or temp-file work (the effect
trace is empty), regardless of the code content. -/
theorem unsupported_language (code lang : String) (env : Env)
    (h1 : pyLower lang ≠ "python") (h2 : pyLower lang ≠ "javascript") :
    analyze code lang env =
      (analysisError ("Language \x22" ++ pyLower lang ++
        "\x22 is not supported. Supported languages: python, javascript"), []) := by
  simp [analyze, h1, h2]

/-- Witness for C5 at the concrete language tag `Ruby`. -/
theorem unsupported_language_witness :
    analyze "x = 1" "Ruby" ⟨⟨false, false, .timedOut, .timedOut⟩, ⟨false, .timedOut⟩⟩ =
      (analysisError ("Language \x22" ++ pyLower "Ruby" ++
        "\x22 is not supported. Supported languages: python, javascript"), []) :=
  unsupported_language "x = 1" "Ruby"
    ⟨⟨false, false, .timedOut, .timedOut⟩, ⟨false, .timedOut⟩⟩
    (by decide) (by decide)

/-- Counterexample to C6 as stated: a flake8 run that exits with status
1 and empty stdout (stderr `boom`) is not treated as a failure — the
pipeline returns a successful result with no error at all, because
`_run_flake8` never inspects the exit status or stderr. -/
theorem tool_failure_detection_counterexample :
    (analyze_python ⟨true, true, .completed ⟨0, "[]", ""⟩ (.ok []),
        .completed ⟨1, "", "boom"⟩⟩).1 =
      { bugs := [], warnings := [], suggestions := []
        summary := some "Found 0 bugs, 0 warnings, 0 suggestions"
        error := none } := rfl

/-- C6 amended: for pylint and eslint, a completed run with empty
stdout (in particular any non-zero exit with empty stdout) is treated
as a tool-execution failure whose error carries the stderr text, and
the analysis returns that error; flake8 never enters this failure
mode — a flake8 run with empty stdout contributes no issues and no
error regardless of exit status. -/
theorem tool_failure_detection (code : String) (env : PyEnv) (jenv : JsEnv) :
    (∀ res parsed, env.pylintAvail = true →
      env.pylintRun = .completed res parsed →
      res.exitCode ≠ 0 → res.stdout = "" →
      (analyze_python env).1 = analysisError ("pylint failed: " ++ res.stderr))
    ∧ (∀ res parsed, jenv.eslintAvail = true →
      jenv.eslintRun = .completed res parsed →
      res.exitCode ≠ 0 → res.stdout = "" →
      (analyze_javascript code jenv).1 =
        analysisError ("ESLint failed: " ++ res.stderr))
    ∧ (∀ res, env.flake8Avail = true → env.flake8Run = .completed res →
      res.stdout = "" →
      (run_flake8 env.flake8Avail env.flake8Run).1 =
        { bugs := [], warnings := [], suggestions := [], error := none }) := by
  refine ⟨?_, ?_, ?_⟩
  · intro res parsed hav hrun _ hs
    apply analyze_python_pylint_error
    rw [hav, hrun]
    simp [run_pylint, hs, toolError]
  · intro res parsed hav hrun _ hs
    simp [analyze_javascript, hav, hrun, hs, analysisError]
  · intro res hav hrun hs
    have hempty : flake8Normalize "" = .ok ([], []) := rfl
    rw [hav, hrun]
    simp [run_flake8, hs, hempty]

/-- Witness for the amended C6: a pylint run exiting 2 with empty
stdout and stderr `perr` makes the analysis return that failure, and a
flake8 run exiting 2 with empty stdout yields a no-error empty tool
result. -/
theorem tool_failure_detection_witness :
    (analyze_python ⟨true, true, .completed ⟨2, "", "perr"⟩ (.ok []),
        .completed ⟨2, "", "ferr"⟩⟩).1 =
      analysisError ("pylint failed: " ++ "perr")
    ∧ (run_flake8 true (.completed ⟨2, "", "ferr"⟩)).1 =
      { bugs := [], warnings := [], suggestions := [], error := none } :=
  ⟨(tool_failure_detection ""
        ⟨true, true, .completed ⟨2, "", "perr"⟩ (.ok []), .completed ⟨2, "", "ferr"⟩⟩
        ⟨false, .timedOut⟩).1 ⟨2, "", "perr"⟩ (.ok []) rfl rfl (by decide) rfl,
   (tool_failure_detection ""
        ⟨true, true, .completed ⟨2, "", "perr"⟩ (.ok []), .completed ⟨2, "", "ferr"⟩⟩
        ⟨false, .timedOut⟩).2.2 ⟨2, "", "ferr"⟩ rfl rfl rfl⟩

theorem analyze_python_removes_temp (env : PyEnv) :
    Effect.removeTempFile ∈ (analyze_python env).2 := by
  simp only [analyze_python]
  split
  · simp
  · split <;> simp

theorem analyze_javascript_temp (code : String) (jenv : JsEnv) :
    Effect.createTempFile ∈ (analyze_javascript code jenv).2 →
    Effect.removeTempFile ∈ (analyze_javascript code jenv).2 := by
  unfold analyze_javascript
  cases hj : jenv.eslintAvail with
  | false => simp
  | true =>
    cases jenv.eslintRun with
    | completed res parsed =>
      cases parsed with
      | ok files =>
        by_cases hs : res.stdout = "" <;> simp [hs]
      | error e =>
        by_cases hs : res.stdout = "" <;> simp [hs]
    | timedOut => simp
    | raised m => simp

/-- C7: a tool invocation that does not complete within the timeout
bound makes the analysis return exactly the corresponding timeout
error, and the temporary file is removed on this exit path; and in
general on every path that created a temporary file the removal effect
also occurs. -/
theorem timeout_handling (code : String) (env : PyEnv) (jenv : JsEnv) :
    (env.pylintAvail = true → env.pylintRun = .timedOut →
      (analyze_python env).1 = analysisError "pylint analysis timed out" ∧
      Effect.removeTempFile ∈ (analyze_python env).2)
    ∧ ((run_pylint env.pylintAvail env.pylintRun).1.error = none →
      env.flake8Avail = true → env.flake8Run = .timedOut →
      (analyze_python env).1 = analysisError "flake8 analysis timed out" ∧
      Effect.removeTempFile ∈ (analyze_python env).2)
    ∧ (jenv.eslintAvail = true → jenv.eslintRun = .timedOut →
      analyze_javascript code jenv =
        (analysisError "ESLint analysis timed out",
          [.createTempFile, .runTool "eslint", .removeTempFile]))
    ∧ (∀ lang e, Effect.createTempFile ∈ (analyze code lang e).2 →
      Effect.removeTempFile ∈ (analyze code lang e).2) := by
  refine ⟨?_, ?_, ?_, ?_⟩
  · intro hav hrun
    refine ⟨?_, analyze_python_removes_temp env⟩
    apply analyze_python_pylint_error
    rw [hav, hrun]
    rfl
  · intro hp hav hrun
    refine ⟨?_, analyze_python_removes_temp env⟩
    apply analyze_python_flake8_error env _ hp
    rw [hav, hrun]
    rfl
  · intro hav hrun
    simp [analyze_javascript, hav, hrun, analysisError]
  · intro lang e
    simp only [analyze]
    split
    · intro _
      exact analyze_python_removes_temp e.py
    · split
      · exact analyze_javascript_temp code e.js
      · simp

/-- Witness for C7 at concrete environments: a pylint timeout and an
eslint timeout each produce the single timeout error, with the removal
effect present. -/
theorem timeout_handling_witness :
    ((analyze_python ⟨true, true, .timedOut, .timedOut⟩).1 =
      analysisError "pylint analysis timed out" ∧
      Effect.removeTempFile ∈ (analyze_python ⟨true, true, .timedOut, .timedOut⟩).2)
    ∧ analyze_javascript "x" ⟨true, .timedOut⟩ =
      (analysisError "ESLint analysis timed out",
        [.createTempFile, .runTool "eslint", .removeTempFile]) :=
  ⟨(timeout_handling "x" ⟨true, true, .timedOut, .timedOut⟩ ⟨true, .timedOut⟩).1
      rfl rfl,
   (timeout_handling "x" ⟨true, true, .timedOut, .timedOut⟩ ⟨true, .timedOut⟩).2.2.1
      rfl rfl⟩

/-- C8: with no eslint binary available, the heuristic fallback on the
JavaScript input `var x = 1` returns normally with no error and its
suggestions contain an entry flagging the legacy `var` declaration. -/
theorem fallback_var_suggestion :
    (analyze_javascript "var x = 1" ⟨false, .timedOut⟩).1.error = none
    ∧ ∃ it ∈ (analyze_javascript "var x = 1" ⟨false, .timedOut⟩).1.suggestions,
        it.message = "Consider using let or const instead of var" := by
  constructor
  · rfl
  · exact ⟨⟨1, none, "Consider using let or const instead of var", "modern",
      none, none⟩, by decide, rfl⟩

theorem shape_analyze_python (env : PyEnv) :
    ((analyze_python env).1.error.isSome ∧ (analyze_python env).1.bugs = [] ∧
      (analyze_python env).1.warnings = [] ∧
      (analyze_python env).1.suggestions = [] ∧
      (analyze_python env).1.summary = none)
    ∨ ((analyze_python env).1.error = none ∧
      (analyze_python env).1.summary.isSome) := by
  by_cases h1 : ∃ m, (run_pylint env.pylintAvail env.pylintRun).1.error = some m
  · obtain ⟨m, hm⟩ := h1
    left
    rw [analyze_python_pylint_error env m hm]
    simp [analysisError]
  · have hp : (run_pylint env.pylintAvail env.pylintRun).1.error = none := by
      cases he : (run_pylint env.pylintAvail env.pylintRun).1.error with
      | none => rfl
      | some m => exact absurd ⟨m, he⟩ h1
    by_cases h2 : ∃ m, (run_flake8 env.flake8Avail env.flake8Run).1.error = some m
    · obtain ⟨m, hm⟩ := h2
      left
      rw [analyze_python_flake8_error env m hp hm]
      simp [analysisError]
    · have hf : (run_flake8 env.flake8Avail env.flake8Run).1.error = none := by
        cases he : (run_flake8 env.flake8Avail env.flake8Run).1.error with
        | none => rfl
        | some m => exact absurd ⟨m, he⟩ h2
      right
      simp [analyze_python, hp, hf]

theorem shape_analyze_javascript (code : String) (jenv : JsEnv) :
    ((analyze_javascript code jenv).1.error.isSome ∧
      (analyze_javascript code jenv).1.bugs = [] ∧
      (analyze_javascript code jenv).1.warnings = [] ∧
      (analyze_javascript code jenv).1.suggestions = [] ∧
      (analyze_javascript code jenv).1.summary = none)
    ∨ ((analyze_javascript code jenv).1.error = none ∧
      (analyze_javascript code jenv).1.summary.isSome) := by
  unfold analyze_javascript
  cases hj : jenv.eslintAvail with
  | false => simp
  | true =>
    cases jenv.eslintRun with
    | completed res parsed =>
      cases parsed with
      | ok files =>
        by_cases hs : res.stdout = "" <;> simp [hs, analysisError]
      | error e =>
        by_cases hs : res.stdout = "" <;> simp [hs, analysisError]
    | timedOut => simp [analysisError]
    | raised m => simp [analysisError]

/-- C9: every result of `analyze` has exactly one of two shapes:
either it carries an error string and all three issue lists are empty
(and no summary), or it carries no error and includes a summary string
(the lists may be populated or empty). -/
theorem analyze_result_shape (code lang : String) (env : Env) :
    ((analyze code lang env).1.error.isSome ∧
      (analyze code lang env).1.bugs = [] ∧
      (analyze code lang env).1.warnings = [] ∧
      (analyze code lang env).1.suggestions = [] ∧
      (analyze code lang env).1.summary = none)
    ∨ ((analyze code lang env).1.error = none ∧
      (analyze code lang env).1.summary.isSome) := by
  simp only [analyze]
  split
  · exact shape_analyze_python env.py
  · split
    · exact shape_analyze_javascript code env.js
    · left
      simp [analysisError]

theorem toNat_ofNat_small {n : Nat} (h : n < 55296) :
    (Char.ofNat n).toNat = n := by
  unfold Char.ofNat
  rw [dif_pos (Or.inl h)]
  rfl

theorem pyLowerChar_idem (c : Char) : pyLowerChar (pyLowerChar c) = pyLowerChar c := by
  unfold pyLowerChar
  by_cases h : 65 ≤ c.toNat ∧ c.toNat ≤ 90
  · rw [if_pos h, toNat_ofNat_small (by omega), if_neg (by omega)]
  · rw [if_neg h, if_neg h]

theorem pyLower_idem (s : String) : pyLower (pyLower s) = pyLower s := by
  show String.mk ((s.data.map pyLowerChar).map pyLowerChar) =
    String.mk (s.data.map pyLowerChar)
  rw [List.map_map]
  exact congrArg String.mk
    (List.map_congr_left (fun c _ => pyLowerChar_idem c))

/-- C10: language dispatch is case-insensitive — `analyze` on any
language tag behaves exactly as on its lower-cased form. -/
theorem dispatch_case_insensitive (code lang : String) (env : Env) :
    analyze code lang env = analyze code (pyLower lang) env := by
  unfold analyze
  rw [pyLower_idem]

end CodeAnalyzer
